import Mathlib

/-!
Verification of the census-income MMoE demo (`census_income_demo.py`) against its
design spec.  The script's evaluation harness, metric callback and control flow
are embedded as executable Lean definitions; durations and network values are
modelled as rationals.  The MMoE layer itself lives in `mmoe.py`, which is not
part of the sources here, so its forward computation is modelled from the spec
(affine experts, per-task softmax gates, convex mixture), while the tower and
harness definitions are translated directly from `census_income_demo.py`.
-/

/-- The command-line arguments of `census_income_demo.py` that the claims touch
(argparse declarations, lines 167-179). -/
structure Args where
  train : Bool
  evaluate : String
  batch_size : Nat
  epochs : Nat
  num_iter : Nat
  num_warmup : Nat

/-- The argparse defaults: `--evaluate` defaults to the string "True",
`--batch_size` to 1, `--epochs` to 10, `--num_iter` to 200, `--num_warmup` to 3;
`--train` is a store_true flag defaulting to false. -/
def defaultArgs : Args :=
  { train := false
  , evaluate := "True"
  , batch_size := 1
  , epochs := 10
  , num_iter := 200
  , num_warmup := 3 }

/-- Lines 264-265: `num_iter = int(len(test_data) / args.batch_size)` followed by
`num_iter = min(num_iter, args.num_iter)`.  For non-negative operands Python's
`int(a / b)` is floor division; Python raises ZeroDivisionError when the batch
size is 0, so theorems about this definition assume `0 < batch`. -/
def numIterOf (datasetLen batch cap : Nat) : Nat :=
  min (datasetLen / batch) cap

/-- The accumulation loop of lines 266-277: for `i in range(epochs)` the
repetition's duration and `num_iter * batch_size` samples are added to the
running totals exactly when `i > args.num_warmup`.  The wall-clock durations of
the repetitions are an external input, passed as the list `durations` (one entry
per repetition, so the number of repetitions is `durations.length`).  Returns
`(total_time, total_sample)`. -/
def evalLoop (numWarmup numIter batch : Nat) (durations : List ℚ) : ℚ × Nat :=
  (List.range durations.length).foldl
    (fun acc i =>
      if numWarmup < i then (acc.1 + durations.getD i 0, acc.2 + numIter * batch) else acc)
    ((0 : ℚ), (0 : Nat))

/-- Outcome of the evaluation block: either the reported pair
(latency in ms/sample, throughput in samples/s) or an uncaught Python
ZeroDivisionError. -/
inductive HarnessOutcome where
  | report : ℚ → ℚ → HarnessOutcome
  | zeroDivisionError : HarnessOutcome
deriving DecidableEq

/-- Lines 262-285: run the accumulation loop, then compute
`latency = total_time / total_sample * 1000` and
`throughput = total_sample / total_time`.  Python raises ZeroDivisionError if
`total_sample` is the integer 0 (latency line) and likewise if `total_time` is
the float 0.0 while computing the throughput quotient; both abort the run
before any aggregate is reported. -/
def harnessRun (numWarmup numIter batch : Nat) (durations : List ℚ) : HarnessOutcome :=
  let acc := evalLoop numWarmup numIter batch durations
  if acc.2 = 0 then HarnessOutcome.zeroDivisionError
  else if acc.1 = 0 then HarnessOutcome.zeroDivisionError
  else HarnessOutcome.report (acc.1 / (acc.2 : ℚ) * 1000) ((acc.2 : ℚ) / acc.1)

/-- Spec-side description: the 0-based indices of the repetitions included in
the aggregate ("repetitions with index ≤ warm-up count are excluded"). -/
def includedIdx (epochs numWarmup : Nat) : List Nat :=
  (List.range epochs).filter (fun i => numWarmup < i)

/-- Spec-side description: the sum of the included repetitions' durations. -/
def includedTime (numWarmup : Nat) (durations : List ℚ) : ℚ :=
  ((includedIdx durations.length numWarmup).map (fun i => durations.getD i 0)).sum

/-- Spec-side description: the sum of the included repetitions' sample counts
(each included repetition contributes `numIter * batch` samples). -/
def includedSamples (epochs numWarmup numIter batch : Nat) : Nat :=
  (includedIdx epochs numWarmup).length * (numIter * batch)

/-- The number of repetitions contributing to the aggregate. -/
def contributingCount (epochs numWarmup : Nat) : Nat :=
  (includedIdx epochs numWarmup).length

lemma foldl_cond_acc (numWarmup numIter batch : Nat) (d : Nat → ℚ) :
    ∀ (l : List Nat) (a : ℚ) (b : Nat),
      l.foldl
        (fun acc i =>
          if numWarmup < i then (acc.1 + d i, acc.2 + numIter * batch) else acc)
        (a, b)
      = (a + ((l.filter (fun i => numWarmup < i)).map d).sum,
         b + (l.filter (fun i => numWarmup < i)).length * (numIter * batch)) := by
  intro l
  induction l with
  | nil => intro a b; simp
  | cons i tl ih =>
    intro a b
    by_cases h : numWarmup < i
    · rw [List.foldl_cons, if_pos h, ih]
      simp only [List.filter_cons, h, decide_True, if_true, List.map_cons, List.sum_cons,
        List.length_cons, Prod.mk.injEq]
      refine ⟨by ring, by ring⟩
    · rw [List.foldl_cons, if_neg h, ih]
      simp [List.filter_cons, h]

/-- The imperative loop computes exactly the spec-side sums. -/
lemma evalLoop_eq (numWarmup numIter batch : Nat) (durations : List ℚ) :
    evalLoop numWarmup numIter batch durations
      = (includedTime numWarmup durations,
         includedSamples durations.length numWarmup numIter batch) := by
  unfold evalLoop includedTime includedSamples includedIdx
  have h := foldl_cond_acc numWarmup numIter batch (fun i => durations.getD i 0)
      (List.range durations.length) 0 0
  simpa using h

lemma mem_includedIdx (epochs numWarmup i : Nat) :
    i ∈ includedIdx epochs numWarmup ↔ (i < epochs ∧ ¬ i ≤ numWarmup) := by
  simp [includedIdx, List.mem_filter, List.mem_range, Nat.not_le, and_comm]

/-- C1: exactly the repetitions with 0-based index ≤ num_warmup are excluded from
the aggregate, and whenever the harness reports a pair, the latency equals
(sum of included durations) / (sum of included sample counts) * 1000 (ms per
sample) and the throughput equals (sum of included sample counts) / (sum of
included durations) (samples per second). -/
theorem harness_aggregate_spec (numWarmup numIter batch : Nat) (durations : List ℚ)
    (lat thr : ℚ)
    (h : harnessRun numWarmup numIter batch durations = HarnessOutcome.report lat thr) :
    (∀ i, i ∈ includedIdx durations.length numWarmup ↔
        (i < durations.length ∧ ¬ i ≤ numWarmup)) ∧
    lat = includedTime numWarmup durations
        / (includedSamples durations.length numWarmup numIter batch : ℚ) * 1000 ∧
    thr = (includedSamples durations.length numWarmup numIter batch : ℚ)
        / includedTime numWarmup durations := by
  refine ⟨fun i => mem_includedIdx durations.length numWarmup i, ?_, ?_⟩ <;>
  · unfold harnessRun at h
    rw [evalLoop_eq] at h
    by_cases h2 : includedSamples durations.length numWarmup numIter batch = 0
    · simp [h2] at h
    · by_cases h1 : includedTime numWarmup durations = 0
      · simp [h1, h2] at h
      · simp only [h1, h2, if_false, if_neg h1, if_neg h2] at h
        cases h
        rfl

/-- Witness for C1 at numWarmup = 0, numIter = 100, batch = 5 and three
repetitions of one second each: repetitions 1 and 2 are included, 500 samples
each, giving latency 2 ms/sample and throughput 500 samples/s. -/
theorem harness_aggregate_spec_witness :
    (2 : ℚ) = includedTime 0 [1, 1, 1]
        / (includedSamples 3 0 100 5 : ℚ) * 1000 ∧
    (500 : ℚ) = (includedSamples 3 0 100 5 : ℚ) / includedTime 0 [1, 1, 1] :=
  ⟨(harness_aggregate_spec 0 100 5 [1, 1, 1] 2 500
      (by unfold harnessRun
          rw [evalLoop_eq]
          norm_num [includedTime, includedSamples, includedIdx, List.range_succ])).2.1,
   (harness_aggregate_spec 0 100 5 [1, 1, 1] 2 500
      (by unfold harnessRun
          rw [evalLoop_eq]
          norm_num [includedTime, includedSamples, includedIdx, List.range_succ])).2.2⟩

/-- C2 counterexample: with epochs = 5 and num_warmup = 3 the loop includes only
index 4 (the guard is `i > 3`), so the number of contributing repetitions is not
2 as claimed. -/
theorem warmup_five_three_cex : ¬ (contributingCount 5 3 = 2) := by decide

/-- C2 amended: with epochs = 5 and num_warmup = 3 exactly 1 repetition (index 4)
contributes to the aggregate; accordingly the accumulated sample total for any
five durations is 1 * (numIter * batch). -/
theorem warmup_five_three_amended :
    contributingCount 5 3 = 1 ∧
    ∀ (numIter batch : Nat) (d0 d1 d2 d3 d4 : ℚ),
      (evalLoop 3 numIter batch [d0, d1, d2, d3, d4]).2 = 1 * (numIter * batch) := by
  refine ⟨by decide, ?_⟩
  intro numIter batch d0 d1 d2 d3 d4
  have h1 : (includedIdx 5 3).length = 1 := by decide
  rw [evalLoop_eq]
  simp [includedSamples, h1]

/-- C3: for a run with a positive batch size, the per-repetition iteration count
is min(cap, floor(datasetLen / batch)); in particular with dataset size 100,
batch size 10 and cap 200 it is 10. -/
theorem iter_count_spec (datasetLen batch cap : Nat) (h : 0 < batch) :
    numIterOf datasetLen batch cap = min cap (datasetLen / batch) ∧
    numIterOf 100 10 200 = 10 := by
  exact ⟨Nat.min_comm _ _, by decide⟩

/-- Witness for C3 at dataset size 100, batch size 10, cap 200. -/
theorem iter_count_spec_witness :
    numIterOf 100 10 200 = min 200 (100 / 10) ∧ numIterOf 100 10 200 = 10 :=
  iter_count_spec 100 10 200 (by decide)

/-- C4: when the warm-up count is at least the number of repetitions, no
repetition contributes to the aggregate and the harness aborts with an uncaught
ZeroDivisionError instead of reporting a latency/throughput pair. -/
theorem degenerate_warmup_fails (numWarmup numIter batch : Nat) (durations : List ℚ)
    (h : durations.length ≤ numWarmup) :
    contributingCount durations.length numWarmup = 0 ∧
    harnessRun numWarmup numIter batch durations = HarnessOutcome.zeroDivisionError := by
  have hidx : includedIdx durations.length numWarmup = [] := by
    rw [List.eq_nil_iff_forall_not_mem]
    intro i hi
    rcases (mem_includedIdx durations.length numWarmup i).1 hi with ⟨hlt, hnle⟩
    exact hnle (le_trans (Nat.le_of_lt hlt) h)
  refine ⟨by simp [contributingCount, hidx], ?_⟩
  unfold harnessRun
  rw [evalLoop_eq]
  simp [includedSamples, hidx]

/-- Witness for C4 with two repetitions and warm-up 3. -/
theorem degenerate_warmup_fails_witness :
    contributingCount (List.length ([1, 1] : List ℚ)) 3 = 0 ∧
    harnessRun 3 5 1 [1, 1] = HarnessOutcome.zeroDivisionError :=
  degenerate_warmup_fails 3 5 1 [1, 1] (by decide)

/-- The three data splits produced by `data_preparation`. -/
inductive Split where
  | train
  | validation
  | test
deriving DecidableEq

/-- Lines 237-252: the split whose features and labels are passed to
`model.fit` as `x`/`y` when `--train` is given.  The call reads
`x=validation_data, y=validation_label`; the `x=train_data, y=train_label`
lines are commented out. -/
def fitSplit : Split := Split.validation

/-- `data_preparation`, lines 97-105: the file `train_df` is read from.  The
original `'data/census-income.data.gz'` line is commented out and the test file
is read instead (with `nrows=90`). -/
def trainSourcePath : String := "data/census-income.test.gz"

/-- `data_preparation`, lines 106-113: the file `other_df` (split 1:1 into
validation and test) is read from (with `nrows=90`). -/
def otherSourcePath : String := "data/census-income.test.gz"

/-- C6 (code bug): the demo fits the model on the validation split, not the
training split, and the training frame is read from the very same file as the
validation/test frame, so the three splits are not genuinely disjoint. -/
theorem fit_uses_validation_split :
    fitSplit = Split.validation ∧ fitSplit ≠ Split.train ∧
    trainSourcePath = otherSourcePath :=
  ⟨rfl, by decide, rfl⟩

/-- What `main` does with the parsed arguments (lines 236-266): `model.fit` is
invoked with the hard-coded keyword `epochs=1` exactly when `--train` was given,
and the evaluation block runs `range(args.epochs)` timed repetitions exactly
when `args.evaluate` is truthy — for a Python `str`, exactly when it is
non-empty. -/
structure MainPlan where
  fitEpochs : Option Nat
  evalRepetitions : Option Nat

/-- The control-flow plan `main` executes for given arguments. -/
def mainPlan (a : Args) : MainPlan :=
  { fitEpochs := if a.train then some 1 else none
  , evalRepetitions := if a.evaluate.isEmpty then none else some a.epochs }

/-- C9: whenever `--train` is given the training loop runs exactly one epoch,
for every value of `--epochs`; `--epochs` only sets the number of timed
repetitions of the evaluation harness (when the harness runs at all). -/
theorem epochs_only_affects_harness (a : Args) (h : a.train = true) :
    (mainPlan a).fitEpochs = some 1 ∧
    (∀ e : Nat, (mainPlan { a with epochs := e }).fitEpochs = some 1) ∧
    (∀ e : Nat, ¬ a.evaluate = "" →
      (mainPlan { a with epochs := e }).evalRepetitions = some e) := by
  refine ⟨by simp [mainPlan, h], fun e => by simp [mainPlan, h], fun e he => ?_⟩
  have : a.evaluate.isEmpty = false := by
    cases hev : a.evaluate.isEmpty
    · rfl
    · exact absurd ((String.isEmpty_iff a.evaluate).1 hev) he
  simp [mainPlan, this]

/-- Witness for C9: with `--train` and the default remaining arguments but
`--epochs 7`, fit runs one epoch and the harness runs 7 repetitions. -/
theorem epochs_only_affects_harness_witness :
    (mainPlan { defaultArgs with train := true }).fitEpochs = some 1 ∧
    (∀ e : Nat,
      (mainPlan { { defaultArgs with train := true } with epochs := e }).fitEpochs = some 1) ∧
    (∀ e : Nat, ¬ ({ defaultArgs with train := true } : Args).evaluate = "" →
      (mainPlan { { defaultArgs with train := true } with epochs := e }).evalRepetitions
        = some e) :=
  epochs_only_affects_harness { defaultArgs with train := true } rfl

/-- C10: `--evaluate` defaults to the string "True" and is tested only for
truthiness: the harness is skipped exactly when the string is empty; in
particular the strings "False" and "0" still run the harness. -/
theorem evaluate_flag_truthiness :
    defaultArgs.evaluate = "True" ∧
    (∀ a : Args, (mainPlan a).evalRepetitions = none ↔ a.evaluate = "") ∧
    (mainPlan { defaultArgs with evaluate := "False" }).evalRepetitions
      = some defaultArgs.epochs ∧
    (mainPlan { defaultArgs with evaluate := "0" }).evalRepetitions
      = some defaultArgs.epochs ∧
    (mainPlan { defaultArgs with evaluate := "" }).evalRepetitions = none := by
  refine ⟨rfl, fun a => ?_, by decide, by decide, by decide⟩
  constructor
  · intro h
    by_cases hev : a.evaluate.isEmpty
    · exact (String.isEmpty_iff a.evaluate).1 hev
    · simp [mainPlan, hev] at h
  · intro h
    simp [mainPlan, h, String.isEmpty_iff]

/-- Modelled from the spec (the metric is computed by the external
`sklearn.metrics.roc_auc_score`): the contribution of one positive/negative
score pair to the ROC-AUC - 1 for a correctly ranked pair, 1/2 for a tie. -/
def rocPairScore (p n : ℚ) : ℚ :=
  if n < p then 1 else if p = n then 1 / 2 else 0

/-- Modelled from the spec ("compute area-under-ROC-curve between that task's
predicted probability of the positive class and its true binary label", and
"Fails with UndefinedMetric if a split's labels for a task contain only one
class"): binary ROC-AUC as the normalized count of correctly ranked
positive/negative pairs; like sklearn's `roc_auc_score`, it raises a ValueError
when y_true holds only one class. -/
def roc_auc_score (yTrue : List Bool) (yScore : List ℚ) : Except String ℚ :=
  let pos := ((yTrue.zip yScore).filter (fun t => t.1)).map (fun t => t.2)
  let neg := ((yTrue.zip yScore).filter (fun t => !t.1)).map (fun t => t.2)
  if yTrue.all (fun b => b) ∨ yTrue.all (fun b => !b) then
    Except.error "ValueError: Only one class present in y_true"
  else
    Except.ok ((pos.map (fun p => (neg.map (fun n => rocPairScore p n)).sum)).sum
      / ((pos.length : ℚ) * (neg.length : ℚ)))

/-- One task's data inside `ROCCallback`: binary labels and predicted positive
scores on each of the three splits. -/
structure TaskEvalData where
  name : String
  trainY : List Bool
  trainP : List ℚ
  valY : List Bool
  valP : List ℚ
  testY : List Bool
  testP : List ℚ

/-- The per-task body of the loop in `ROCCallback.on_epoch_end` (lines 64-74):
compute train, validation and test ROC-AUC in that order; the first ValueError
raised by `roc_auc_score` propagates. -/
def taskLine (t : TaskEvalData) : Except String (String × ℚ × ℚ × ℚ) :=
  match roc_auc_score t.trainY t.trainP with
  | Except.error e => Except.error e
  | Except.ok a =>
    match roc_auc_score t.valY t.valP with
    | Except.error e => Except.error e
    | Except.ok b =>
      match roc_auc_score t.testY t.testP with
      | Except.error e => Except.error e
      | Except.ok c => Except.ok (t.name, a, b, c)

/-- `ROCCallback.on_epoch_end` (lines 58-76): iterate over the tasks in order,
printing one metric line per task; a ValueError raised inside the loop
propagates out of the callback, so iteration stops at the first failing
task/split.  Returns the lines actually emitted together with the uncaught
error, if any. -/
def onEpochEnd : List TaskEvalData → List (String × ℚ × ℚ × ℚ) × Option String
  | [] => ([], none)
  | t :: rest =>
    match taskLine t with
    | Except.error e => ([], some e)
    | Except.ok r =>
      let tail := onEpochEnd rest
      (r :: tail.1, tail.2)

/-- C5 counterexample: two tasks; the first task's validation labels hold only
the positive class while every split of the second task holds both classes.
The callback reports nothing at all - in particular no metrics for the healthy
second task - and the ValueError escapes, even though the second task's ROC-AUC
on every split is perfectly computable. -/
theorem metric_isolation_cex :
    (onEpochEnd
      [ { name := "income"
        , trainY := [true, false], trainP := [1, 0]
        , valY := [true, true], valP := [1, 1]
        , testY := [true, false], testP := [1, 0] }
      , { name := "marital"
        , trainY := [true, false], trainP := [1, 0]
        , valY := [true, false], valP := [1, 0]
        , testY := [true, false], testP := [1, 0] } ]).1 = [] ∧
    (onEpochEnd
      [ { name := "income"
        , trainY := [true, false], trainP := [1, 0]
        , valY := [true, true], valP := [1, 1]
        , testY := [true, false], testP := [1, 0] }
      , { name := "marital"
        , trainY := [true, false], trainP := [1, 0]
        , valY := [true, false], valP := [1, 0]
        , testY := [true, false], testP := [1, 0] } ]).2
      = some "ValueError: Only one class present in y_true" ∧
    (taskLine
      { name := "marital"
      , trainY := [true, false], trainP := [1, 0]
      , valY := [true, false], valP := [1, 0]
      , testY := [true, false], testP := [1, 0] }).isOk = true := by
  refine ⟨?_, ?_, ?_⟩ <;> rfl

/-- C5 amended: a single-class split does surface the ValueError, but without
any isolation: as soon as one split of one task fails, `on_epoch_end` aborts,
reporting nothing for the failing task nor for any task after it (metrics of
tasks strictly before the failing one were already printed). -/
theorem metric_failure_aborts (t : TaskEvalData) (rest : List TaskEvalData) (e : String)
    (h : taskLine t = Except.error e) :
    onEpochEnd (t :: rest) = ([], some e) := by
  unfold onEpochEnd
  rw [h]

/-- Witness for the amended C5: a first task whose validation labels are all
positive aborts the callback before a healthy second task is evaluated. -/
theorem metric_failure_aborts_witness :
    onEpochEnd
      [ { name := "income"
        , trainY := [true, false], trainP := [1, 0]
        , valY := [true, true], valP := [1, 1]
        , testY := [true, false], testP := [1, 0] }
      , { name := "marital"
        , trainY := [true, false], trainP := [1, 0]
        , valY := [true, false], valP := [1, 0]
        , testY := [true, false], testP := [1, 0] } ]
      = ([], some "ValueError: Only one class present in y_true") :=
  metric_failure_aborts
    { name := "income"
    , trainY := [true, false], trainP := [1, 0]
    , valY := [true, true], valP := [1, 1]
    , testY := [true, false], testP := [1, 0] }
    [ { name := "marital"
      , trainY := [true, false], trainP := [1, 0]
      , valY := [true, false], valP := [1, 0]
      , testY := [true, false], testP := [1, 0] } ]
    "ValueError: Only one class present in y_true"
    (by rfl)

/-- A dense layer's parameters: one weight row and one bias per output unit. -/
structure DenseLayer where
  W : List (List ℚ)
  b : List ℚ

/-- Dot product of two rational vectors. -/
def dotProd (w x : List ℚ) : ℚ :=
  (List.zipWith (fun a c => a * c) w x).sum

/-- Affine map of a dense layer: output j is W_j · x + b_j. -/
def affine (d : DenseLayer) (x : List ℚ) : List ℚ :=
  List.zipWith (fun w bi => dotProd w x + bi) d.W d.b

/-- Modelled from the spec ("affine projection to num_experts logits followed
by softmax"; `mmoe.py` is not among the sources): softmax over a logits vector.
The exponential map is abstracted as `expf`; the theorems assume only its
strict positivity, which the exponential the code applies satisfies
everywhere. -/
def softmaxWith (expf : ℚ → ℚ) (z : List ℚ) : List ℚ :=
  z.map (fun zi => expf zi / (z.map expf).sum)

/-- ReLU activation, used by the tower hidden layers. -/
def relu (x : ℚ) : ℚ := max x 0

/-- Scale a vector by a gate weight. -/
def vscale (c : ℚ) (v : List ℚ) : List ℚ :=
  v.map (fun x => c * x)

/-- Sum a list of vectors of width `units`. -/
def vsum (units : Nat) (vs : List (List ℚ)) : List ℚ :=
  vs.foldl (fun acc v => List.zipWith (fun a c => a + c) acc v) (List.replicate units 0)

/-- Modelled from the spec: the expert bank on one example - each expert an
independent affine map followed by the configured activation `act`. -/
def expertEmbeddings (act : ℚ → ℚ) (experts : List DenseLayer) (x : List ℚ) : List (List ℚ) :=
  experts.map (fun d => (affine d x).map act)

/-- Modelled from the spec: one task's gate output for one example - affine
projection to num_experts logits followed by softmax. -/
def gateWeights (expf : ℚ → ℚ) (g : DenseLayer) (x : List ℚ) : List ℚ :=
  softmaxWith expf (affine g x)

/-- Modelled from the spec: the mixture combiner - the gate-weighted sum of the
expert embeddings for one example. -/
def mixedEmbedding (expf act : ℚ → ℚ) (units : Nat) (experts : List DenseLayer) (g : DenseLayer)
    (x : List ℚ) : List ℚ :=
  vsum units (List.zipWith vscale (gateWeights expf g x) (expertEmbeddings act experts x))

/-- One task's tower (lines 211-221 of `census_income_demo.py`): a hidden
Dense(8, relu) layer followed by a softmax output layer of the task's output
cardinality. -/
structure Tower where
  hidden : DenseLayer
  output : DenseLayer

/-- Tower forward pass: relu hidden layer, then softmax output layer. -/
def towerForward (expf : ℚ → ℚ) (t : Tower) (mixed : List ℚ) : List ℚ :=
  softmaxWith expf (affine t.output ((affine t.hidden mixed).map relu))

/-- The demo model (lines 199-224): the shared expert bank, one gate per task
and one tower per task, tasks being the gate/tower pairs in order. -/
structure DemoModel where
  experts : List DenseLayer
  gates : List DenseLayer
  towers : List Tower

/-- The per-task prediction matrices of the demo model on a batch: for each
gate/tower pair the matrix whose rows are the tower outputs over the batch. -/
def modelPredictions (expf act : ℚ → ℚ) (units : Nat) (m : DemoModel)
    (batch : List (List ℚ)) : List (List (List ℚ)) :=
  (m.gates.zip m.towers).map
    (fun gt => batch.map
      (fun x => towerForward expf gt.2 (mixedEmbedding expf act units m.experts gt.1 x)))

lemma sum_map_div (l : List ℚ) (f : ℚ → ℚ) (c : ℚ) :
    (l.map (fun a => f a / c)).sum = (l.map f).sum / c := by
  induction l with
  | nil => simp
  | cons a tl ih => simp [ih, add_div]

lemma exp_sum_pos (expf : ℚ → ℚ) (hpos : ∀ y, 0 < expf y) (z : List ℚ) (hz : z ≠ []) :
    0 < (z.map expf).sum := by
  refine List.sum_pos _ ?_ ?_
  · intro a ha
    rcases List.mem_map.1 ha with ⟨y, _, rfl⟩
    exact hpos y
  · simpa using hz

lemma softmaxWith_sum (expf : ℚ → ℚ) (hpos : ∀ y, 0 < expf y) (z : List ℚ) (hz : z ≠ []) :
    (softmaxWith expf z).sum = 1 := by
  have hS := exp_sum_pos expf hpos z hz
  unfold softmaxWith
  rw [sum_map_div]
  exact div_self (ne_of_gt hS)

lemma softmaxWith_nonneg (expf : ℚ → ℚ) (hpos : ∀ y, 0 < expf y) (z : List ℚ) (hz : z ≠ []) :
    ∀ v ∈ softmaxWith expf z, 0 ≤ v := by
  intro v hv
  rcases List.mem_map.1 hv with ⟨y, _, rfl⟩
  exact le_of_lt (div_pos (hpos y) (exp_sum_pos expf hpos z hz))

lemma affine_length (d : DenseLayer) (x : List ℚ) :
    (affine d x).length = min d.W.length d.b.length := by
  simp [affine]

lemma affine_ne_nil (d : DenseLayer) (x : List ℚ) (hW : d.W ≠ []) (hb : d.b ≠ []) :
    affine d x ≠ [] := by
  have hlen : 0 < (affine d x).length := by
    rw [affine_length]
    exact lt_min (List.length_pos.2 hW) (List.length_pos.2 hb)
  exact List.length_pos.1 hlen

/-- C8: on any input batch, every row of the Gating Network's output is a valid
probability distribution over the experts: the entries are non-negative and the
row sums to exactly 1 - in particular within the spec's ± 1e-6 tolerance.  This
holds for every configuration (any gate with at least one output unit, any
strictly positive exponential map, any batch). -/
theorem gate_rows_probability (expf : ℚ → ℚ) (g : DenseLayer) (batch : List (List ℚ))
    (hpos : ∀ y, 0 < expf y) (hW : g.W ≠ []) (hb : g.b ≠ []) :
    ∀ x ∈ batch,
      (gateWeights expf g x).sum = 1 ∧
      |(gateWeights expf g x).sum - 1| ≤ 1 / 1000000 ∧
      ∀ v ∈ gateWeights expf g x, 0 ≤ v := by
  intro x _
  have hne := affine_ne_nil g x hW hb
  have hsum := softmaxWith_sum expf hpos (affine g x) hne
  have hnn := softmaxWith_nonneg expf hpos (affine g x) hne
  unfold gateWeights
  refine ⟨hsum, ?_, hnn⟩
  rw [hsum]
  norm_num

/-- Witness for C8: a one-expert gate with weight row [1] and bias 0 on the
one-example batch [[2]], with the everywhere-positive map expf = const 1. -/
theorem gate_rows_probability_witness :
    (gateWeights (fun q => 1) { W := [[1]], b := [0] } [2]).sum = 1 :=
  ((gate_rows_probability (fun q => 1) { W := [[1]], b := [0] } [[2]]
      (fun y => one_pos) (by simp) (by simp)) [2] (by simp)).1

/-- C7: a model with 8 experts, unit width 4, two gate/tower pairs and task
output sizes [2, 2], applied to a 32-row feature batch, produces exactly two
prediction matrices, each with 32 rows of length 2, and every row sums to
exactly 1 (the softmax output rows). -/
theorem demo_model_output_shape (expf act : ℚ → ℚ) (m : DemoModel) (batch : List (List ℚ))
    (hpos : ∀ y, 0 < expf y)
    (hexp : m.experts.length = 8)
    (hg : m.gates.length = 2)
    (ht : m.towers.length = 2)
    (hout : ∀ t ∈ m.towers, t.output.W.length = 2 ∧ t.output.b.length = 2)
    (hbatch : batch.length = 32) :
    (modelPredictions expf act 4 m batch).length = 2 ∧
    ∀ M ∈ modelPredictions expf act 4 m batch,
      M.length = 32 ∧
      ∀ row ∈ M, row.length = 2 ∧ row.sum = 1 := by
  constructor
  · simp [modelPredictions, hg, ht]
  · intro M hM
    rcases List.mem_map.1 hM with ⟨gt, hgt, rfl⟩
    have htw := hout gt.2 (List.of_mem_zip hgt).2
    constructor
    · simp [hbatch]
    · intro row hrow
      rcases List.mem_map.1 hrow with ⟨x, _, rfl⟩
      have hWne : gt.2.output.W ≠ [] := by
        intro hcontra
        rw [hcontra] at htw
        simp at htw
      have hbne : gt.2.output.b ≠ [] := by
        intro hcontra
        rw [hcontra] at htw
        simp at htw
      have hne := affine_ne_nil gt.2.output
        ((affine gt.2.hidden (mixedEmbedding expf act 4 m.experts gt.1 x)).map relu)
        hWne hbne
      constructor
      · unfold towerForward softmaxWith
        rw [List.length_map, affine_length, htw.1, htw.2]
        rfl
      · exact softmaxWith_sum expf hpos _ hne

/-- Witness for C7: a concrete model with 8 (degenerate) experts, 2 gates and 2
towers whose output layers have width 2, on a batch of 32 empty feature rows. -/
theorem demo_model_output_shape_witness :
    (modelPredictions (fun q => 1) (fun q => q) 4
      { experts := List.replicate 8 { W := [], b := [] }
      , gates := List.replicate 2 { W := [], b := [] }
      , towers := List.replicate 2
          { hidden := { W := [], b := [] }
          , output := { W := [[1], [1]], b := [0, 0] } } }
      (List.replicate 32 [])).length = 2 :=
  (demo_model_output_shape (fun q => 1) (fun q => q)
    { experts := List.replicate 8 { W := [], b := [] }
    , gates := List.replicate 2 { W := [], b := [] }
    , towers := List.replicate 2
        { hidden := { W := [], b := [] }
        , output := { W := [[1], [1]], b := [0, 0] } } }
    (List.replicate 32 [])
    (fun y => one_pos) (by simp) (by simp) (by simp)
    (by
      intro t ht
      rw [List.eq_of_mem_replicate ht]
      constructor <;> rfl)
    (by simp)).1
